import Mathlib

/-!
Verification of `src/scripts/transaction_generator.py` against its
natural-language specification.

The script is a single linear Python program: it draws random values from a
seeded pseudorandom source, builds transaction records, backdates their
timestamps over a 7-day window, sorts them by timestamp and exports the
result.  The shallow embedding below translates each of its functions into a
Lean function.  Randomness is made explicit: every value the Python code
obtains from `random` / `np.random` (a uniform draw, a log-normal sample, a
list index, a `randint` result) or from the wall clock (`time.time()`,
`datetime.now()`) becomes an explicit argument, so theorems quantify over
every possible draw.  `randint` bounds become hypotheses where a claim
depends on them.

Representation choices, recorded once here:
* Python `datetime` values are microseconds since the epoch (`ℕ`); this is
  the resolution of `datetime`.  The `timestamp` field of a record stores the
  value denoted by the `%Y-%m-%d %H:%M:%S` string, i.e. the time truncated
  to whole seconds (`usec / 1000000`).  The string rendering of that format
  is fixed-width and zero-padded, hence order- and equality-isomorphic to
  this numeric value, so sorting records by the string column is sorting by
  this field.
* Python floats (`np.float64` amounts, weights) are modelled as exact
  rationals `ℚ`; `round(x, 0)` is round-half-to-even (`pyRound`).
* The call `df.sort_values(timestamp)` is modelled by its documented
  contract — the output is a permutation of the rows, sorted by the column —
  realised here by `List.mergeSort` on the timestamp field.  pandas does not
  document which permutation the default quicksort kind picks on ties,
  and no theorem below relies on the tie behaviour of the model.
* Python `str(n)` for a nonnegative `int` is `natStr` (decimal digits, most
  significant first); f-string concatenation is string append.
-/

namespace TransactionGen

/-- Decimal digit characters of a natural number, most significant digit
first: the model of the Python expression `str(n)` for a nonnegative int. -/
def natStr (n : ℕ) : List Char :=
  if n = 0 then ['0'] else ((Nat.digits 10 n).map Nat.digitChar).reverse

/-- Model of `round(x, 0)` on a numpy float: round half to even. -/
def pyRound (x : ℚ) : ℤ :=
  if x - ⌊x⌋ < 1/2 then ⌊x⌋
  else if 1/2 < x - ⌊x⌋ then ⌊x⌋ + 1
  else if ⌊x⌋ % 2 = 0 then ⌊x⌋ else ⌊x⌋ + 1

/-- The four keys of the `TRANSACTION_TYPES` dict. -/
inductive TransactionType
  | transfer | payment | withdrawal | deposit
deriving DecidableEq

open TransactionType

instance : Inhabited TransactionType := ⟨transfer⟩

/-- The `VILLES` list from the source. -/
def VILLES : List String := ["Dakar", "Thiès", "Saint-Louis", "Kaolack", "Ziguinchor"]

/-- The `TRANSACTION_TYPES` dict from the source, as its ordered
(key, weight) pairs, exactly as `list(keys)` / `list(values)` see it. -/
def TRANSACTION_TYPES : List (TransactionType × ℚ) :=
  [(transfer, 0.45), (payment, 0.30), (withdrawal, 0.20), (deposit, 0.05)]

/-- The `OPERATEURS` list from the source. -/
def OPERATEURS : List String := ["Orange Money", "Wave", "Free Money", "Wizall"]

/-- The `MONTANT_RANGES` dict from the source (Python ints, so `ℤ`). -/
def MONTANT_RANGES : TransactionType → ℤ × ℤ
  | transfer => (1000, 100000)
  | payment => (500, 50000)
  | withdrawal => (5000, 200000)
  | deposit => (10000, 500000)

/-- Categorical pick used by `np.random.choice(keys, p=values)`: numpy draws
one uniform `u` and returns the first key whose cumulative weight exceeds it
(searchsorted on the cumulative weights, right side); walking the list subtracting the
weights seen so far is the same computation.  The `default` is a
totalisation artefact for the empty list, never reached by the program. -/
def cumPick {α : Type} [Inhabited α] : List (α × ℚ) → ℚ → α
  | [], _ => default
  | (a, w) :: rest, u => if u < w then a else cumPick rest (u - w)

/-- Model of `np.random.choice(keys, p=values)`: numpy validates that the
weights sum to 1 — raising a ValueError whose message reads
"probabilities do not sum to 1" — before drawing.  Modelled exactly over
`ℚ` (numpy compares within a float tolerance). -/
def np_random_choice {α : Type} [Inhabited α] (items : List (α × ℚ)) (u : ℚ) :
    Except String α :=
  if (items.map Prod.snd).sum = 1 then Except.ok (cumPick items u)
  else Except.error "probabilities do not sum to 1"

/-- The type draw inside `generer_transaction`.  For the constant source
weight table the `np.random.choice` sum check passes (the weights sum to 1,
see `np_random_choice_eq_choose_type`), so the draw reduces to the pick. -/
def choose_type (u : ℚ) : TransactionType := cumPick TRANSACTION_TYPES u

/-- The clamp-and-round at the end of `generer_montant`:
`max(min_val, min(max_val, round(montant, 0)))`. -/
def montant_clamp (r : ℤ × ℤ) (montant : ℚ) : ℚ :=
  max (r.1 : ℚ) (min (r.2 : ℚ) ((pyRound montant : ℤ) : ℚ))

/-- The function `generer_montant`.  `draw` is the sample returned by
`np.random.lognormal(mean=log(min + (max-min)/3), sigma=0.8)`; the mean and
sigma shape its distribution but not its support, so the embedding takes the
sample itself as the explicit random input and quantifies over it. -/
def generer_montant (transaction_type : TransactionType) (draw : ℚ) : ℚ :=
  montant_clamp (MONTANT_RANGES transaction_type) draw

/-- The two-digit mobile code list inside `generer_user_id`. -/
def prefixList : List String := ["77", "78", "76", "70", "75"]

/-- The function `generer_user_id`.  `p` is the `random.choice` index and
`numero` the `random.randint(1000000, 9999999)` draw (bounds become
hypotheses in the theorems that need them). -/
def generer_user_id (p : Fin 5) (numero : ℕ) : String :=
  "user_" ++ prefixList.get ⟨p.1, p.isLt⟩ ++ String.mk (natStr numero)

/-- The random draws and clock readings of one generation step, in the order the
source consumes them.  Index draws for `random.choice` are `Fin` of the
concrete list lengths; integer draws carry their `randint` ranges as
hypotheses in the theorems. -/
structure Draws where
  typeU : ℚ
  montantDraw : ℚ
  cityIdx : Fin 5
  opIdx : Fin 4
  prefIdx : Fin 5
  userNum : ℕ
  nowUsec : ℕ
  clockMs : ℕ
  suffix : ℕ
  offsetHours : ℕ
deriving DecidableEq

/-- The generated record (one row of the DataFrame).  `timestamp` holds the
whole-second value denoted by the formatted `%Y-%m-%d %H:%M:%S` string. -/
structure Transaction where
  transaction_id : String
  timestamp : ℕ
  user_id : String
  amount : ℚ
  city : String
  transaction_type : TransactionType
  operator : String
  status : String
deriving DecidableEq

/-- The function `generer_transaction`.  `d.clockMs` is the `int(time.time()*1000)`
reading, `d.nowUsec` the `datetime.now()` reading (its strftime rendering is
the placeholder timestamp, overwritten by the batch), `d.suffix` the
`random.randint(1000, 9999)` draw. -/
def generer_transaction (d : Draws) : Transaction :=
  { transaction_id :=
      "TXN" ++ String.mk (natStr d.clockMs) ++ "_" ++ String.mk (natStr d.suffix)
  , timestamp := d.nowUsec / 1000000
  , user_id := generer_user_id d.prefIdx d.userNum
  , amount := generer_montant (choose_type d.typeU) d.montantDraw
  , city := VILLES.get ⟨d.cityIdx.1, d.cityIdx.isLt⟩
  , transaction_type := choose_type d.typeU
  , operator := OPERATEURS.get ⟨d.opIdx.1, d.opIdx.isLt⟩
  , status := "completed" }

/-- The anchor `base_date = datetime.now() - timedelta(days=7)`, in microseconds. -/
def windowStartUsec (nowUsec : ℕ) : ℕ := nowUsec - 7 * 86400 * 1000000

/-- The whole-second value denoted by the formatted string of the window anchor. -/
def windowStartSec (nowUsec : ℕ) : ℕ := windowStartUsec nowUsec / 1000000

/-- The comparison `df.sort_values` sorts the timestamp column by: order of the
formatted timestamp strings, i.e. of the timestamp values. -/
def tsLe (a b : Transaction) : Bool := decide (a.timestamp ≤ b.timestamp)

/-- The `transactions` list built by the loop in
`generer_batch_transactions`: for each `i`, a generated record with its
timestamp overwritten by `base_date + timedelta(hours=offset_hours)`,
rendered at second resolution. -/
def batch_rows (n : ℕ) (nowUsec : ℕ) (draws : ℕ → Draws) : List Transaction :=
  (List.range n).map fun i =>
    let trans := generer_transaction (draws i)
    { trans with
        timestamp :=
          (windowStartUsec nowUsec + (draws i).offsetHours * 3600 * 1000000) / 1000000 }

/-- The function `generer_batch_transactions`.  `nowUsec` is the single `datetime.now()`
reading taken before the loop; `draws i` are the draws of the i-th iteration,
`(draws i).offsetHours` the `random.randint(0, 7*24)` offset.  Progress
printing is output-only and has no model.  `reset_index(drop=True)`
renumbers rows and does not change the sequence. -/
def generer_batch_transactions (n : ℕ) (nowUsec : ℕ) (draws : ℕ → Draws) :
    List Transaction :=
  (batch_rows n nowUsec draws).mergeSort tsLe

/-- Model of the Python call `random.choice(seq)`: an index draw into the
sequence; an IndexError reading "Cannot choose from an empty sequence" on
an empty one.  The
index is reduced modulo the length to totalise (`random.choice` itself only
produces in-range indices). -/
def py_choice {α : Type} (xs : List α) (i : ℕ) : Except String α :=
  if h : xs.length = 0 then Except.error "Cannot choose from an empty sequence"
  else Except.ok (xs.get ⟨i % xs.length, Nat.mod_lt _ (Nat.pos_of_ne_zero h)⟩)

/-- The function `generer_transaction` with the module-level configuration (weight table,
amount ranges, city and operator lists) exposed as parameters — the
configuration surface of spec §6 — and with the validation errors of the
library calls surfaced as `Except`, in the order the source performs
them: the weighted type draw first, then the amount, then city, operator. -/
def generer_transaction_cfg (weights : List (TransactionType × ℚ))
    (ranges : TransactionType → ℤ × ℤ) (villes operateurs : List String)
    (d : Draws) : Except String Transaction :=
  match np_random_choice weights d.typeU with
  | Except.error e => Except.error e
  | Except.ok trans_type =>
    match py_choice villes d.cityIdx.1 with
    | Except.error e => Except.error e
    | Except.ok city =>
      match py_choice operateurs d.opIdx.1 with
      | Except.error e => Except.error e
      | Except.ok pOperator =>
        match py_choice prefixList d.prefIdx.1 with
        | Except.error e => Except.error e
        | Except.ok pPrefix =>
          Except.ok
            { transaction_id :=
                "TXN" ++ String.mk (natStr d.clockMs) ++ "_" ++ String.mk (natStr d.suffix)
            , timestamp := d.nowUsec / 1000000
            , user_id := "user_" ++ pPrefix ++ String.mk (natStr d.userNum)
            , amount := montant_clamp (ranges trans_type) d.montantDraw
            , city := city
            , transaction_type := trans_type
            , operator := pOperator
            , status := "completed" }

/-- Concrete draws used to instantiate theorems with hypotheses. -/
def d0 : Draws :=
  { typeU := 0, montantDraw := 7, cityIdx := 0, opIdx := 0, prefIdx := 0
  , userNum := 1234567, nowUsec := 1700000000000000, clockMs := 1700000000000
  , suffix := 1234, offsetHours := 5 }

/-- Same as `d0` with a millisecond clock reading one later: the draws of a second
run of the same seeded program started 1 ms after the first. -/
def d1 : Draws := { d0 with clockMs := 1700000000001 }

/-- A configuration whose `transfer` amount range has `min > max`. -/
def badRanges : TransactionType → ℤ × ℤ
  | TransactionType.transfer => (10, 5)
  | t => MONTANT_RANGES t

/-- The source weight table passes the numpy sum check, so the type draw of
the configurable generator agrees with `choose_type`. -/
theorem np_random_choice_eq_choose_type (u : ℚ) :
    np_random_choice TRANSACTION_TYPES u = Except.ok (choose_type u) := by
  unfold np_random_choice choose_type TRANSACTION_TYPES
  norm_num

/-! ### Decimal-string facts -/

theorem digitChar_isDigit : ∀ d < 10, (Nat.digitChar d).isDigit = true := by
  decide

theorem natStr_isDigit (n : ℕ) : ∀ c ∈ natStr n, c.isDigit = true := by
  intro c hc
  unfold natStr at hc
  split at hc
  · simp only [List.mem_singleton] at hc
    subst hc; decide
  · simp only [List.mem_reverse, List.mem_map] at hc
    obtain ⟨d, hd, rfl⟩ := hc
    exact digitChar_isDigit d (Nat.digits_lt_base (by norm_num) hd)

theorem natStr_no_underscore (n : ℕ) : '_' ∉ natStr n := by
  intro h
  have := natStr_isDigit n '_' h
  simp at this

theorem map_digitChar_inj : ∀ (a b : List ℕ), (∀ d ∈ a, d < 10) → (∀ d ∈ b, d < 10) →
    a.map Nat.digitChar = b.map Nat.digitChar → a = b
  | [], [], _, _, _ => rfl
  | [], _ :: _, _, _, h => by simp at h
  | _ :: _, [], _, _, h => by simp at h
  | x :: xs, y :: ys, ha, hb, h => by
    simp only [List.map_cons, List.cons.injEq] at h
    have hx : x = y := by
      have h10x : x < 10 := ha x (List.mem_cons_self x xs)
      have h10y : y < 10 := hb y (List.mem_cons_self y ys)
      revert h10x h10y
      have : ∀ u < 10, ∀ v < 10, Nat.digitChar u = Nat.digitChar v → u = v := by decide
      exact fun hu hv => this x hu y hv h.1
    have hxs : xs = ys :=
      map_digitChar_inj xs ys (fun d hd => ha d (List.mem_cons_of_mem _ hd))
        (fun d hd => hb d (List.mem_cons_of_mem _ hd)) h.2
    rw [hx, hxs]

theorem natStr_inj (a b : ℕ) (h : natStr a = natStr b) : a = b := by
  have key : ∀ n : ℕ, n ≠ 0 → natStr n ≠ ['0'] := by
    intro n hn hcontra
    unfold natStr at hcontra
    rw [if_neg hn] at hcontra
    have hmap : (Nat.digits 10 n).map Nat.digitChar = ['0'] := by
      have := congrArg List.reverse hcontra
      simpa using this
    have hdig : Nat.digits 10 n = [0] :=
      map_digitChar_inj _ [0] (fun d hd => Nat.digits_lt_base (by norm_num) hd)
        (by simp) (by simpa using hmap)
    have := Nat.ofDigits_digits 10 n
    rw [hdig] at this
    simp [Nat.ofDigits] at this
    exact hn this.symm
  by_cases ha : a = 0 <;> by_cases hb : b = 0
  · rw [ha, hb]
  · exfalso
    apply key b hb
    rw [← h, ha]
    rfl
  · exfalso
    apply key a ha
    rw [h, hb]
    rfl
  · unfold natStr at h
    rw [if_neg ha, if_neg hb] at h
    have hmap : (Nat.digits 10 a).map Nat.digitChar = (Nat.digits 10 b).map Nat.digitChar := by
      have := congrArg List.reverse h
      simpa using this
    have hdig : Nat.digits 10 a = Nat.digits 10 b :=
      map_digitChar_inj _ _ (fun d hd => Nat.digits_lt_base (by norm_num) hd)
        (fun d hd => Nat.digits_lt_base (by norm_num) hd) hmap
    have := congrArg (Nat.ofDigits 10) hdig
    rwa [Nat.ofDigits_digits, Nat.ofDigits_digits] at this

theorem natStr_length (n k : ℕ) (h1 : 10 ^ k ≤ n) (h2 : n < 10 ^ (k + 1)) :
    (natStr n).length = k + 1 := by
  have hn : n ≠ 0 := by
    intro h
    rw [h] at h1
    have hpos : 0 < 10 ^ k := pow_pos (by norm_num) k
    omega
  unfold natStr
  rw [if_neg hn]
  simp only [List.length_reverse, List.length_map]
  rw [Nat.digits_len 10 n (by norm_num) hn]
  rw [Nat.log_eq_of_pow_le_of_lt_pow h1 h2]

/-- Splitting a character list at its first separator is unambiguous. -/
theorem append_sep_inj (sep : Char) : ∀ (a b c d : List Char), sep ∉ a → sep ∉ b →
    a ++ sep :: c = b ++ sep :: d → a = b ∧ c = d
  | [], [], c, d, _, _, h => by simpa using h
  | [], y :: ys, c, d, _, hb, h => by
    simp only [List.nil_append, List.cons_append, List.cons.injEq] at h
    exact absurd (h.1 ▸ List.mem_cons_self y ys) hb
  | x :: xs, [], c, d, ha, _, h => by
    simp only [List.nil_append, List.cons_append, List.cons.injEq] at h
    exact absurd (h.1.symm ▸ List.mem_cons_self x xs) ha
  | x :: xs, y :: ys, c, d, ha, hb, h => by
    simp only [List.cons_append, List.cons.injEq] at h
    obtain ⟨rfl, htail⟩ := h
    obtain ⟨h1, h2⟩ := append_sep_inj sep xs ys c d
      (fun hm => ha (List.mem_cons_of_mem _ hm))
      (fun hm => hb (List.mem_cons_of_mem _ hm)) htail
    exact ⟨by rw [h1], h2⟩

/-- The transaction-id string determines the millisecond clock reading and
the 4-digit suffix that built it. -/
theorem txn_id_inj (m1 s1 m2 s2 : ℕ)
    (h : "TXN" ++ String.mk (natStr m1) ++ "_" ++ String.mk (natStr s1) =
         "TXN" ++ String.mk (natStr m2) ++ "_" ++ String.mk (natStr s2)) :
    m1 = m2 ∧ s1 = s2 := by
  have hdata := congrArg String.data h
  simp only [String.data_append] at hdata
  have hdata2 : natStr m1 ++ '_' :: natStr s1 = natStr m2 ++ '_' :: natStr s2 := by
    have : ('T' :: 'X' :: 'N' :: (natStr m1 ++ '_' :: natStr s1) : List Char) =
           'T' :: 'X' :: 'N' :: (natStr m2 ++ '_' :: natStr s2) := by
      simpa using hdata
    simpa using this
  obtain ⟨h1, h2⟩ := append_sep_inj '_' _ _ _ _
    (natStr_no_underscore m1) (natStr_no_underscore m2) hdata2
  exact ⟨natStr_inj _ _ h1, natStr_inj _ _ h2⟩

/-- C1: For every generated transaction, the amount returned by
`generer_montant` lies within the `[min_val, max_val]` range associated with
the `transaction_type` of the transaction, inclusive of both bounds, and is a
whole unit (integer-valued), for every possible draw of the underlying
log-normal random variable. -/
theorem C1_amount_within_range (t : TransactionType) (x : ℚ) :
    (∃ k : ℤ, generer_montant t x = (k : ℚ)) ∧
    ((MONTANT_RANGES t).1 : ℚ) ≤ generer_montant t x ∧
    generer_montant t x ≤ ((MONTANT_RANGES t).2 : ℚ) := by
  have hle : (MONTANT_RANGES t).1 ≤ (MONTANT_RANGES t).2 := by
    cases t <;> decide
  unfold generer_montant montant_clamp
  refine ⟨⟨max (MONTANT_RANGES t).1 (min (MONTANT_RANGES t).2 (pyRound x)), ?_⟩, ?_, ?_⟩
  · push_cast
    rfl
  · exact le_max_left _ _
  · refine max_le ?_ (min_le_left _ _)
    exact_mod_cast hle

/-- C7: For every generated transaction, `user_id` matches the pattern
`user_` followed by one of the 5 configured two-digit prefixes
(77, 78, 76, 70, 75) followed by exactly 7 digits, the 7-digit number
being the `random.randint(1000000, 9999999)` draw (inclusive bounds). -/
theorem C7_user_id_shape (p : Fin 5) (nu : ℕ) (h1 : 1000000 ≤ nu) (h2 : nu ≤ 9999999) :
    generer_user_id p nu =
      "user_" ++ prefixList.get ⟨p.1, p.isLt⟩ ++ String.mk (natStr nu) ∧
    prefixList.get ⟨p.1, p.isLt⟩ ∈ prefixList ∧
    (natStr nu).length = 7 ∧
    ∀ c ∈ natStr nu, c.isDigit = true := by
  refine ⟨rfl, List.get_mem _ _ _, ?_, natStr_isDigit nu⟩
  exact natStr_length nu 6 (by norm_num; omega) (by norm_num; omega)

/-- Witness for C7 at prefix index 0 and number 1234567. -/
theorem C7_user_id_shape_witness :
    (1000000 ≤ 1234567 ∧ 1234567 ≤ 9999999) ∧
    (generer_user_id (0 : Fin 5) 1234567 =
        "user_" ++ prefixList.get ⟨(0 : Fin 5).1, (0 : Fin 5).isLt⟩ ++
          String.mk (natStr 1234567) ∧
      prefixList.get ⟨(0 : Fin 5).1, (0 : Fin 5).isLt⟩ ∈ prefixList ∧
      (natStr 1234567).length = 7 ∧
      ∀ c ∈ natStr 1234567, c.isDigit = true) :=
  ⟨⟨by norm_num, by norm_num⟩,
    C7_user_id_shape (0 : Fin 5) 1234567 (by norm_num) (by norm_num)⟩

/-- C9: Every generated `transaction_id` begins with the literal prefix
`TXN` and has the exact shape `TXN` + millisecond clock integer + `_` +
4-digit suffix (the `random.randint(1000, 9999)` draw); in particular it
contains exactly one underscore, separating the time part from the suffix. -/
theorem C9_txn_id_shape (d : Draws) (h1 : 1000 ≤ d.suffix) (h2 : d.suffix ≤ 9999) :
    (generer_transaction d).transaction_id =
      "TXN" ++ String.mk (natStr d.clockMs) ++ "_" ++ String.mk (natStr d.suffix) ∧
    (generer_transaction d).transaction_id.data.count '_' = 1 ∧
    (natStr d.suffix).length = 4 ∧
    (∀ c ∈ natStr d.clockMs, c.isDigit = true) ∧
    (∀ c ∈ natStr d.suffix, c.isDigit = true) := by
  refine ⟨rfl, ?_, ?_, natStr_isDigit _, natStr_isDigit _⟩
  · show ("TXN" ++ String.mk (natStr d.clockMs) ++ "_" ++
      String.mk (natStr d.suffix)).data.count '_' = 1
    simp only [String.data_append, List.count_append]
    have hms : (natStr d.clockMs).count '_' = 0 :=
      List.count_eq_zero.mpr (natStr_no_underscore _)
    have hsf : (natStr d.suffix).count '_' = 0 :=
      List.count_eq_zero.mpr (natStr_no_underscore _)
    have htxn : ("TXN".data).count '_' = 0 := by decide
    have hund : ("_".data).count '_' = 1 := by decide
    simp only [String.data] at htxn hund ⊢
    omega
  · exact natStr_length d.suffix 3 (by norm_num; omega) (by norm_num; omega)

/-- Witness for C9 at the concrete draws `d0` (suffix 1234). -/
theorem C9_txn_id_shape_witness :
    (1000 ≤ d0.suffix ∧ d0.suffix ≤ 9999) ∧
    ((generer_transaction d0).transaction_id =
        "TXN" ++ String.mk (natStr d0.clockMs) ++ "_" ++ String.mk (natStr d0.suffix) ∧
      (generer_transaction d0).transaction_id.data.count '_' = 1 ∧
      (natStr d0.suffix).length = 4 ∧
      (∀ c ∈ natStr d0.clockMs, c.isDigit = true) ∧
      (∀ c ∈ natStr d0.suffix, c.isDigit = true)) :=
  ⟨⟨by norm_num [d0], by norm_num [d0]⟩,
    C9_txn_id_shape d0 (by norm_num [d0]) (by norm_num [d0])⟩

/-! ### Batch facts -/

theorem tsLe_trans : ∀ a b c : Transaction, tsLe a b → tsLe b c → tsLe a c := by
  intro a b c
  unfold tsLe
  simp only [decide_eq_true_eq]
  omega

theorem tsLe_total : ∀ a b : Transaction, tsLe a b || tsLe b a := by
  intro a b
  unfold tsLe
  simp only [Bool.or_eq_true, decide_eq_true_eq]
  omega

/-- Every record of a batch carries a timestamp of the form
`window start + offset hours`, at second resolution. -/
theorem mem_batch_timestamp (n now : ℕ) (draws : ℕ → Draws) (t : Transaction)
    (ht : t ∈ generer_batch_transactions n now draws) :
    ∃ i < n, t.timestamp = windowStartSec now + (draws i).offsetHours * 3600 := by
  unfold generer_batch_transactions at ht
  rw [List.mem_mergeSort] at ht
  unfold batch_rows at ht
  rw [List.mem_map] at ht
  obtain ⟨i, hi, rfl⟩ := ht
  refine ⟨i, List.mem_range.mp hi, ?_⟩
  show (windowStartUsec now + (draws i).offsetHours * 3600 * 1000000) / 1000000 = _
  rw [Nat.add_mul_div_right]
  · rfl
  · norm_num

/-- C2: For every `n` and every random draw, the collection returned by
`generer_batch_transactions` is sorted by the `timestamp` field ascending:
for every adjacent pair `(i, i+1)` of positions in the output,
`timestamp[i] <= timestamp[i+1]`. -/
theorem C2_sorted_by_timestamp (n now : ℕ) (draws : ℕ → Draws) (i : ℕ)
    (h : i + 1 < (generer_batch_transactions n now draws).length) :
    ((generer_batch_transactions n now draws).get ⟨i, Nat.lt_of_succ_lt h⟩).timestamp ≤
      ((generer_batch_transactions n now draws).get ⟨i + 1, h⟩).timestamp := by
  have hp : (generer_batch_transactions n now draws).Pairwise (fun a b => tsLe a b = true) := by
    unfold generer_batch_transactions
    exact List.sorted_mergeSort tsLe_trans tsLe_total _
  rw [List.pairwise_iff_get] at hp
  have := hp ⟨i, Nat.lt_of_succ_lt h⟩ ⟨i + 1, h⟩ (by simp [Fin.lt_def])
  simpa [tsLe] using this

/-- The length of the concrete 2-element batch used by witnesses. -/
theorem batch2_length :
    (generer_batch_transactions 2 1700000000000000 fun _ => d0).length = 2 := by
  unfold generer_batch_transactions
  rw [List.length_mergeSort]
  unfold batch_rows
  simp

/-- Witness for C2 on a concrete 2-element batch. -/
theorem C2_sorted_by_timestamp_witness :
    0 + 1 < (generer_batch_transactions 2 1700000000000000 fun _ => d0).length ∧
    ((generer_batch_transactions 2 1700000000000000 fun _ => d0).get
        ⟨0, by rw [batch2_length]; omega⟩).timestamp ≤
      ((generer_batch_transactions 2 1700000000000000 fun _ => d0).get
        ⟨0 + 1, by rw [batch2_length]; omega⟩).timestamp :=
  ⟨by rw [batch2_length]; omega,
    C2_sorted_by_timestamp 2 1700000000000000 (fun _ => d0) 0
      (by rw [batch2_length]; omega)⟩

/-- C5: Every timestamp in a batch equals `window_start` plus a whole-hours
offset drawn from `[0, 7*24]`, and hence falls within
`[window_start, window_start + 7 days]`, where `window_start` is the single
anchor `now − 7 days` computed at the start of the batch. -/
theorem C5_timestamp_window (n now : ℕ) (draws : ℕ → Draws)
    (hoff : ∀ i < n, (draws i).offsetHours ≤ 168) :
    ∀ t ∈ generer_batch_transactions n now draws,
      (∃ h ≤ 168, t.timestamp = windowStartSec now + 3600 * h) ∧
      windowStartSec now ≤ t.timestamp ∧
      t.timestamp ≤ windowStartSec now + 7 * 86400 := by
  intro t ht
  obtain ⟨i, hi, hts⟩ := mem_batch_timestamp n now draws t ht
  have hle : (draws i).offsetHours ≤ 168 := hoff i hi
  refine ⟨⟨(draws i).offsetHours, hle, by rw [hts]; ring⟩, ?_, ?_⟩
  · rw [hts]; omega
  · rw [hts]
    have : (draws i).offsetHours * 3600 ≤ 168 * 3600 := by
      exact Nat.mul_le_mul_right _ hle
    omega

/-- Witness for C5 on a concrete 1-element batch with offset 5 hours. -/
theorem C5_timestamp_window_witness :
    (∀ i < 1, ((fun _ => d0) i).offsetHours ≤ 168) ∧
    ∀ t ∈ generer_batch_transactions 1 1700000000000000 fun _ => d0,
      (∃ h ≤ 168, t.timestamp = windowStartSec 1700000000000000 + 3600 * h) ∧
      windowStartSec 1700000000000000 ≤ t.timestamp ∧
      t.timestamp ≤ windowStartSec 1700000000000000 + 7 * 86400 :=
  ⟨fun _ _ => by norm_num [d0],
    C5_timestamp_window 1 1700000000000000 (fun _ => d0) fun _ _ => by norm_num [d0]⟩

/-- C10: All timestamps of one batch lie on the whole-hour grid anchored at
the window start — they agree with the anchor modulo 3600 seconds, i.e.
share its minute and second components — and take at most 169 distinct
values (offsets 0 through 168 hours from the one anchor). -/
theorem C10_hour_grid (n now : ℕ) (draws : ℕ → Draws)
    (hoff : ∀ i < n, (draws i).offsetHours ≤ 168) :
    (∀ t ∈ generer_batch_transactions n now draws,
        t.timestamp % 3600 = windowStartSec now % 3600) ∧
    ((generer_batch_transactions n now draws).map Transaction.timestamp).toFinset.card ≤ 169 := by
  constructor
  · intro t ht
    obtain ⟨i, _, hts⟩ := mem_batch_timestamp n now draws t ht
    rw [hts]
    exact Nat.add_mul_mod_self_right _ _ _
  · have hsub :
        ((generer_batch_transactions n now draws).map Transaction.timestamp).toFinset ⊆
          (Finset.range 169).image fun h => windowStartSec now + h * 3600 := by
      intro x hx
      rw [List.mem_toFinset, List.mem_map] at hx
      obtain ⟨t, ht, rfl⟩ := hx
      obtain ⟨i, hi, hts⟩ := mem_batch_timestamp n now draws t ht
      rw [Finset.mem_image]
      exact ⟨(draws i).offsetHours, Finset.mem_range.mpr (by have := hoff i hi; omega), hts.symm⟩
    calc ((generer_batch_transactions n now draws).map Transaction.timestamp).toFinset.card
        ≤ ((Finset.range 169).image fun h => windowStartSec now + h * 3600).card :=
          Finset.card_le_card hsub
      _ ≤ (Finset.range 169).card := Finset.card_image_le
      _ = 169 := Finset.card_range 169

/-- Witness for C10 on a concrete 1-element batch. -/
theorem C10_hour_grid_witness :
    (∀ i < 1, ((fun _ => d0) i).offsetHours ≤ 168) ∧
    ((∀ t ∈ generer_batch_transactions 1 1700000000000000 fun _ => d0,
        t.timestamp % 3600 = windowStartSec 1700000000000000 % 3600) ∧
      ((generer_batch_transactions 1 1700000000000000 fun _ => d0).map
          Transaction.timestamp).toFinset.card ≤ 169) :=
  ⟨fun _ _ => by norm_num [d0],
    C10_hour_grid 1 1700000000000000 (fun _ => d0) fun _ _ => by norm_num [d0]⟩

/-! ### Identifier uniqueness and run determinism -/

/-- C6 (amended): transaction ids of a batch are pairwise distinct whenever
no two generation calls observe the same millisecond clock value AND draw
the same suffix — uniqueness is only conditional on that, i.e.
probabilistic, not guaranteed. -/
theorem C6_unique_ids (n now : ℕ) (draws : ℕ → Draws)
    (hdist : ∀ i < n, ∀ j < n, i ≠ j →
        ((draws i).clockMs, (draws i).suffix) ≠ ((draws j).clockMs, (draws j).suffix)) :
    ((generer_batch_transactions n now draws).map Transaction.transaction_id).Nodup := by
  have hperm : ((generer_batch_transactions n now draws).map Transaction.transaction_id).Perm
      ((batch_rows n now draws).map Transaction.transaction_id) :=
    (List.mergeSort_perm _ _).map _
  rw [hperm.nodup_iff]
  unfold batch_rows
  rw [List.map_map]
  apply (List.nodup_range n).map_on
  intro i hi j hj heq
  by_contra hij
  apply hdist i (List.mem_range.mp hi) j (List.mem_range.mp hj) hij
  have h2 : "TXN" ++ String.mk (natStr (draws i).clockMs) ++ "_" ++
        String.mk (natStr (draws i).suffix) =
      "TXN" ++ String.mk (natStr (draws j).clockMs) ++ "_" ++
        String.mk (natStr (draws j).suffix) := heq
  obtain ⟨h3, h4⟩ := txn_id_inj _ _ _ _ h2
  rw [h3, h4]

/-- Witness for the amended C6: a 2-element batch whose two generation calls
read different millisecond clocks has distinct ids. -/
theorem C6_unique_ids_witness :
    (∀ i < 2, ∀ j < 2, i ≠ j →
        (((fun i => if i = 0 then d0 else d1) i).clockMs,
            ((fun i => if i = 0 then d0 else d1) i).suffix) ≠
          (((fun i => if i = 0 then d0 else d1) j).clockMs,
            ((fun i => if i = 0 then d0 else d1) j).suffix)) ∧
    ((generer_batch_transactions 2 1700000000000000 fun i =>
        if i = 0 then d0 else d1).map Transaction.transaction_id).Nodup :=
  ⟨by decide, C6_unique_ids 2 1700000000000000 _ (by decide)⟩

/-- C6 counterexample: in a batch of two whose generation calls observe the
same millisecond clock and draw the same suffix, the two transactions share
one `transaction_id`, so ids are not unique per run. -/
theorem C6_counterexample :
    ¬ ((generer_batch_transactions 2 1700000000000000 fun _ => d0).map
        Transaction.transaction_id).Nodup := by
  intro h
  have hperm : ((generer_batch_transactions 2 1700000000000000 fun _ => d0).map
      Transaction.transaction_id).Perm
      ((batch_rows 2 1700000000000000 fun _ => d0).map Transaction.transaction_id) :=
    (List.mergeSort_perm _ _).map _
  rw [hperm.nodup_iff] at h
  unfold batch_rows at h
  rw [List.map_map] at h
  rw [show List.range 2 = [0, 1] from rfl] at h
  simp only [List.map_cons, List.map_nil] at h
  rw [List.nodup_cons] at h
  exact h.1 (List.mem_singleton.mpr rfl)

/-- A 1-element batch is the single adjusted record (the sort of a
singleton). -/
theorem batch1_eq (now : ℕ) (dr : ℕ → Draws) :
    generer_batch_transactions 1 now dr =
      [{ generer_transaction (dr 0) with
          timestamp :=
            (windowStartUsec now + (dr 0).offsetHours * 3600 * 1000000) / 1000000 }] := by
  unfold generer_batch_transactions batch_rows
  rw [show List.range 1 = [0] from rfl]
  simp only [List.map_cons, List.map_nil]
  rw [List.mergeSort_singleton]

/-- Two 1-record runs that differ in the `time.time()` millisecond reading
of their generation call produce different outputs: the clock reading is
embedded in `transaction_id`. -/
theorem batch1_ne_of_clockMs_ne (now : ℕ) (a b : Draws) (h : a.clockMs ≠ b.clockMs) :
    generer_batch_transactions 1 now (fun _ => a) ≠
      generer_batch_transactions 1 now (fun _ => b) := by
  rw [batch1_eq, batch1_eq]
  intro heq
  rw [List.cons.injEq] at heq
  have hid := congrArg Transaction.transaction_id heq.1
  have h2 : "TXN" ++ String.mk (natStr a.clockMs) ++ "_" ++ String.mk (natStr a.suffix) =
      "TXN" ++ String.mk (natStr b.clockMs) ++ "_" ++ String.mk (natStr b.suffix) := hid
  exact h (txn_id_inj _ _ _ _ h2).1

/-- C3 (amended): with the seed fixed, the output is a function of the
random draws and the wall-clock readings alone; two runs are byte-identical
only if their clock readings also coincide, and runs whose millisecond
clock readings differ produce different outputs. -/
theorem C3_identical_runs_need_equal_clocks (now : ℕ) (a b : Draws)
    (h : a.clockMs ≠ b.clockMs) :
    generer_batch_transactions 1 now (fun _ => a) ≠
      generer_batch_transactions 1 now (fun _ => b) :=
  batch1_ne_of_clockMs_ne now a b h

/-- Witness for the amended C3 at the concrete draws `d0`, `d1`. -/
theorem C3_identical_runs_need_equal_clocks_witness :
    d0.clockMs ≠ d1.clockMs ∧
    generer_batch_transactions 1 1700000000000000 (fun _ => d0) ≠
      generer_batch_transactions 1 1700000000000000 (fun _ => d1) :=
  ⟨by decide, C3_identical_runs_need_equal_clocks 1700000000000000 d0 d1 (by decide)⟩

/-- C3 counterexample: two runs with identical configuration and identical
random draws (the fixed seed), started 1 ms apart — their draws differ only
in the `time.time()` reading — produce different output datasets. -/
theorem C3_counterexample :
    generer_batch_transactions 1 1700000000000000 (fun _ => d0) ≠
      generer_batch_transactions 1 1700000000000000 (fun _ => d1) :=
  batch1_ne_of_clockMs_ne 1700000000000000 d0 d1 (by decide)

/-! ### Configuration validation behaviour -/

/-- With an empty range (`min > max`) the clamp silently returns `min_val`:
no error is raised and an amount is produced. -/
theorem montant_clamp_empty_range (mn mx : ℤ) (x : ℚ) (h : mx < mn) :
    montant_clamp (mn, mx) x = (mn : ℚ) := by
  unfold montant_clamp
  apply max_eq_left
  have hc : (mx : ℚ) < (mn : ℚ) := by exact_mod_cast h
  exact le_of_lt (lt_of_le_of_lt (min_le_left _ _) hc)

/-- C8 (amended): there is no startup validation.  A weight table not
summing to 1 raises the descriptive numpy error at the first generation call
(so no transaction is produced), an empty city list raises the
empty-sequence error at the first generation call, but an amount range with
`min > max` is never detected — generation proceeds, every amount silently
clamped to `min_val`. -/
theorem C8_config_errors :
    (∀ (w : List (TransactionType × ℚ)) (ranges : TransactionType → ℤ × ℤ)
        (villes operateurs : List String) (d : Draws),
        (w.map Prod.snd).sum ≠ 1 →
        generer_transaction_cfg w ranges villes operateurs d =
          Except.error "probabilities do not sum to 1") ∧
    (∀ (w : List (TransactionType × ℚ)) (ranges : TransactionType → ℤ × ℤ)
        (operateurs : List String) (d : Draws),
        (w.map Prod.snd).sum = 1 →
        generer_transaction_cfg w ranges [] operateurs d =
          Except.error "Cannot choose from an empty sequence") ∧
    (∀ (mn mx : ℤ) (x : ℚ), mx < mn → montant_clamp (mn, mx) x = (mn : ℚ)) := by
  refine ⟨?_, ?_, fun mn mx x h => montant_clamp_empty_range mn mx x h⟩
  · intro w ranges villes operateurs d hsum
    simp [generer_transaction_cfg, np_random_choice, hsum, Except.bind]
  · intro w ranges operateurs d hsum
    simp [generer_transaction_cfg, np_random_choice, hsum, py_choice, Except.bind]

/-- Witness for the amended C8: a weight table summing to 0.5 errors, the
real weight table with an empty city list errors, and the empty range
`(10, 5)` silently yields 10. -/
theorem C8_config_errors_witness :
    ((([(TransactionType.transfer, (0.5 : ℚ))].map Prod.snd).sum ≠ 1) ∧
      generer_transaction_cfg [(TransactionType.transfer, (0.5 : ℚ))] MONTANT_RANGES
          VILLES OPERATEURS d0 =
        Except.error "probabilities do not sum to 1") ∧
    (((TRANSACTION_TYPES.map Prod.snd).sum = 1) ∧
      generer_transaction_cfg TRANSACTION_TYPES MONTANT_RANGES [] OPERATEURS d0 =
        Except.error "Cannot choose from an empty sequence") ∧
    ((5 : ℤ) < 10 ∧ montant_clamp (10, 5) 7 = ((10 : ℤ) : ℚ)) :=
  ⟨⟨by norm_num, C8_config_errors.1 _ _ _ _ _ (by norm_num)⟩,
    ⟨by norm_num [TRANSACTION_TYPES], C8_config_errors.2.1 _ _ _ _
      (by norm_num [TRANSACTION_TYPES])⟩,
    ⟨by norm_num, C8_config_errors.2.2 10 5 7 (by norm_num)⟩⟩

/-- C8 counterexample: under a configuration whose `transfer` range has
`min = 10 > max = 5`, the generator does NOT fail fast — it returns a
transaction (amount clamped to 10), so records are generated under the bad
configuration. -/
theorem C8_counterexample :
    (generer_transaction_cfg TRANSACTION_TYPES badRanges VILLES OPERATEURS d0).toOption.map
      Transaction.amount = some ((10 : ℤ) : ℚ) := by
  have htype : choose_type d0.typeU = TransactionType.transfer := by
    show cumPick TRANSACTION_TYPES d0.typeU = TransactionType.transfer
    rw [show d0.typeU = 0 from rfl]
    unfold TRANSACTION_TYPES
    rw [cumPick]
    rw [if_pos (by norm_num)]
  have hamount : montant_clamp (badRanges (TransactionType.transfer)) d0.montantDraw =
      ((10 : ℤ) : ℚ) := by
    rw [show badRanges TransactionType.transfer = (10, 5) from rfl]
    exact montant_clamp_empty_range 10 5 _ (by norm_num)
  simp only [generer_transaction_cfg, np_random_choice_eq_choose_type, htype, hamount,
    py_choice, VILLES, OPERATEURS, prefixList, Except.bind]
  simp only [List.length_cons, List.length_nil]
  norm_num
  exact ⟨_, rfl, rfl⟩

end TransactionGen
